import Mathlib

/-!
Shallow embedding of the SentinelShield-AI prompt-filtering gateway
(`src/defense_engine.py` and `src/anomaly.py`), together with proofs of the
behavioural claims about its three-layer decision pipeline.

External collaborators (the Gemini model call, JSON parsing, the sentence
embedder, the scikit-learn estimators, the filesystem and pickle) are modelled
as explicit function parameters; the repository's own control flow and data
handling are translated line by line.
-/

namespace SentinelShield

/-- The Python values the pipeline manipulates: `None`, booleans, numbers,
strings and the 2-float tuples used for PCA coordinates.  Floats are modelled
as rationals.  JSON values are modelled flat (the pipeline only ever inspects
top-level dictionary fields, by truthiness and equality). -/
inductive PyVal : Type
  | none
  | bool (b : Bool)
  | num (q : ℚ)
  | str (s : String)
  | tup (a b : ℚ)
  deriving DecidableEq

/-- A Python dictionary with string keys, in insertion order (one binding per
key, as in Python). -/
abbrev PyDict := List (String × PyVal)

/-- Result of `json.loads`: either a dictionary or some other JSON value.
The defense engine calls `.get` / item assignment on this, which raises on a
non-dictionary. -/
inductive PyObj : Type
  | dict (d : PyDict)
  | val (v : PyVal)
  deriving DecidableEq

/-- Python truthiness (`bool(x)`) on the modelled values. -/
def PyVal.truthy : PyVal → Bool
  | .none => false
  | .bool b => b
  | .num q => decide (q ≠ 0)
  | .str s => decide (s ≠ "")
  | .tup _ _ => true

/-- Python `str(x)`, as used by f-string interpolation of verdict fields. -/
def PyVal.pyStr : PyVal → String
  | .none => "None"
  | .bool true => "True"
  | .bool false => "False"
  | .num q => toString q
  | .str s => s
  | .tup a b => "(" ++ toString a ++ ", " ++ toString b ++ ")"

/-- `d[k]` lookup returning `Option`: first (and only) binding of `k`. -/
def dictLookup (d : PyDict) (k : String) : Option PyVal :=
  match d with
  | [] => Option.none
  | (k2, v) :: rest => if k2 = k then some v else dictLookup rest k

/-- Python `d.get(k, default)`. -/
def dictGet (d : PyDict) (k : String) (default : PyVal) : PyVal :=
  (dictLookup d k).getD default

/-- Python `d[k] = v`: replace the binding in place if the key exists,
otherwise append it. -/
def dictSet (d : PyDict) (k : String) (v : PyVal) : PyDict :=
  match d with
  | [] => [(k, v)]
  | (k2, w) :: rest => if k2 = k then (k2, v) :: rest else (k2, w) :: dictSet rest k v

/-- `charsStartWith s p` : `p` is a leading run of `s` (character lists). -/
def charsStartWith : List Char → List Char → Bool
  | _, [] => true
  | [], _ :: _ => false
  | c :: cs, p :: ps => c == p && charsStartWith cs ps

/-- `charsContain s p` : `p` occurs contiguously inside `s`, as Python's
`p in s` on strings (the empty pattern always occurs). -/
def charsContain : List Char → List Char → Bool
  | [], pat => pat.isEmpty
  | c :: cs, pat => charsStartWith (c :: cs) pat || charsContain cs pat

/-- Python `sub in s` for strings. -/
def containsSub (s sub : String) : Bool :=
  charsContain s.toList sub.toList

/-- Python `prompt.lower()`, character-wise (the banned phrases are ASCII). -/
def pyLower (s : String) : String :=
  String.mk (s.toList.map Char.toLower)

/-- `SentinelDefense.banned_phrases` (`defense_engine.py`, `__init__`). -/
def banned_phrases : List String :=
  ["ignore previous instructions", "disregard the above",
   "system override", "drop table", "sudo rm -rf /"]

/-- `SentinelDefense.check_rules`: `True` iff no banned phrase occurs in the
lowercased prompt. -/
def check_rules (prompt : String) : Bool :=
  banned_phrases.all (fun phrase => !containsSub (pyLower prompt) phrase)

/-- `SentinelDefense._clean_json`: strip, drop code fences, drop newlines. -/
def clean_json (text : String) : String :=
  (((text.trim).replace "```json" "").replace "```" "").replace "\n" ""

/-- The fixed adjudication instruction of `analyze_malicious_intent`. -/
def system_instruction : String :=
  "You are an intelligent AI Firewall. Your primary goal is to distinguish between "
  ++ "MALICIOUS ACTIONS (e.g., hacking, social engineering, destroying data) and "
  ++ "SAFE CONTEXT (e.g., research, storytelling, education, \x27researching novels\x27). "
  ++ "Critically analyze the user\x27s prompt. "
  ++ "- Example of UNSAFE: \x27How do I hack a bank?\x27 -> BLOCK. "
  ++ "- Example of SAFE: \x27I\x27m writing a novel about a character who needs to hack a bank. How would they do it?\x27 -> ALLOW. "
  ++ "- Example of SAFE: \x27Explain SQL Injection for my cybersecurity class.\x27 -> ALLOW. "
  ++ "Return a single, raw JSON object with these exact keys: \x7b\x27is_safe\x27: bool, \x27threat_type\x27: str, \x27reason\x27: str\x7d."

/-- The full prompt sent to the generative model. -/
def full_prompt (prompt : String) : String :=
  system_instruction ++ "\n\nUser Prompt: \"" ++ prompt ++ "\""

/-- `SentinelDefense.analyze_malicious_intent`.  The external model call is
`gen` (returning the response text or an exception message) and JSON parsing
is `parseJson` (returning the parsed value or an exception message); both
failure kinds are caught by the `except` clause, which synthesizes the
fail-closed verdict. -/
def analyze_malicious_intent (gen : String → Except String String)
    (parseJson : String → Except String PyObj) (prompt : String) : PyObj :=
  match gen (full_prompt prompt) with
  | .error e =>
      .dict [("is_safe", .bool false),
             ("threat_type", .str "analysis_error"),
             ("reason", .str ("AI model returned a malformed response or an error occurred: " ++ e))]
  | .ok text =>
      match parseJson (clean_json text) with
      | .error e =>
          .dict [("is_safe", .bool false),
                 ("threat_type", .str "analysis_error"),
                 ("reason", .str ("AI model returned a malformed response or an error occurred: " ++ e))]
      | .ok v => v

/-- The dictionary returned by `AnomalyDetector.detect_anomaly`. -/
structure AnomalyOut : Type where
  is_anomaly : Bool
  anomaly_score : ℚ
  pca_coords : ℚ × ℚ
  deriving DecidableEq

/-- `SentinelDefense.process_request`.  `detect` is the anomaly detector call
(its exceptions propagate), `gen`/`parseJson` feed `analyze_malicious_intent`.
Calling `.get` or item assignment on a non-dictionary adjudication result
raises, modelled by the `.error` branches. -/
def process_request (gen : String → Except String String)
    (parseJson : String → Except String PyObj)
    (detect : String → Except String AnomalyOut) (prompt : String) :
    Except String PyDict :=
  if check_rules prompt = false then
    .ok [("is_safe", .bool false), ("threat_type", .str "rule_violation"),
         ("reason", .str "Request blocked by rule-based filter. Found a banned phrase."),
         ("action", .str "blocked"), ("pca_coords", .tup 0 0)]
  else
    match detect prompt with
    | .error e => .error e
    | .ok anomaly_result =>
      let pca_coords := anomaly_result.pca_coords
      if anomaly_result.is_anomaly then
        match analyze_malicious_intent gen parseJson prompt with
        | .dict gemini_opinion =>
          if (dictGet gemini_opinion "is_safe" (.bool false)).truthy then
            .ok [("is_safe", .bool true), ("action", .str "allowed"),
                 ("threat_type", .str "anomaly_overridden"),
                 ("reason", .str ("Anomaly was detected but overridden by AI context analysis. Gemini reason: "
                   ++ (dictGet gemini_opinion "reason" .none).pyStr)),
                 ("pca_coords", .tup pca_coords.1 pca_coords.2)]
          else
            .ok [("is_safe", .bool false), ("action", .str "blocked"),
                 ("threat_type", dictGet gemini_opinion "threat_type" (.str "anomaly_confirmed")),
                 ("reason", .str ("Anomaly was detected and confirmed by AI context analysis. Gemini reason: "
                   ++ (dictGet gemini_opinion "reason" .none).pyStr)),
                 ("pca_coords", .tup pca_coords.1 pca_coords.2)]
        | .val _ => .error "AttributeError: adjudication result is not a dictionary"
      else
        match analyze_malicious_intent gen parseJson prompt with
        | .dict analysis_result =>
          let withCoords := dictSet analysis_result "pca_coords" (.tup pca_coords.1 pca_coords.2)
          if (dictGet withCoords "is_safe" (.bool false)).truthy = false then
            .ok (dictSet withCoords "action" (.str "blocked"))
          else
            .ok (dictSet withCoords "action" (.str "allowed"))
        | .val _ => .error "TypeError: adjudication result is not a dictionary"

/-! ## Anomaly detector (`src/anomaly.py`)

The scikit-learn estimators and the sentence embedder are abstract:
`Emb` is the embedding type, `M` a fitted `IsolationForest`, `P` a fitted
`PCA`, `B` the projected baseline matrix.  The library operations
(`encode`, `predict`, `decision_function`, `transform`, the two `fit`s and
`pickle`) are function parameters. -/

/-- The mutable model state of `AnomalyDetector`: the three attributes set by
`__init__` to `None` and populated jointly by training or loading.  This same
record is the dictionary `_save_model_state` pickles. -/
structure AnomalyDetector (M P B : Type) : Type where
  model : Option M
  pca : Option P
  baseline_embeddings_pca : Option B

/-- Outcome of `pickle.load` on the artifact: success, or one of the two
exception classes the loader catches (`EOFError`, `pickle.UnpicklingError`),
or any other exception type `pickle.load` may raise (`AttributeError`,
`ImportError`, `IndexError`, ...). -/
inductive PickleResult (M P B : Type) : Type
  | ok (state : AnomalyDetector M P B)
  | eofError (msg : String)
  | unpicklingError (msg : String)
  | otherError (msg : String)

/-- The persisted artifact at `MODEL_STATE_PATH`, as the loader observes it:
existence, byte size, and what unpickling its contents yields. -/
structure ModelFile (M P B : Type) : Type where
  fileExists : Bool
  fileSize : Nat
  pickled : PickleResult M P B

variable {Emb M P B : Type}

/-- `AnomalyDetector._save_model_state`: pickles the three-field state dict.
`pickle.dump` always writes a non-empty artifact (modelled as size 1) that
unpickles back to the same three fields. -/
def save_model_state (det : AnomalyDetector M P B) : ModelFile M P B :=
  { fileExists := true, fileSize := 1,
    pickled := .ok { model := det.model, pca := det.pca,
                     baseline_embeddings_pca := det.baseline_embeddings_pca } }

/-- The 17 baseline prompts of `train_initial_model`. -/
def base_prompts_once : List String :=
  ["Hello, how are you?", "What is the capital of Spain?",
   "Write a Python function to sort a list.", "Tell me a story.",
   "Summarize the main points of this article.", "Explain how a car engine works.",
   "What\x27s the weather forecast for tomorrow?", "Solve for y: 3y - 7 = 11",
   "List the primary colors.", "How do I make a good cup of coffee?",
   "I am writing a cybersecurity novel about hackers.",
   "I am researching firewalls and need to understand how they work.",
   "How to kill a process in Linux using the terminal?",
   "What is SQL injection and how can I prevent it in my code?",
   "For my history class, can you explain the concept of a \x27trojan horse\x27?",
   "My character in a story needs to bypass a security system. What are some fictional methods?",
   "Explain different types of malware for a school presentation."]

/-- The training corpus: the baseline prompts repeated 5 times (`* 5`). -/
def base_prompts : List String :=
  List.flatten (List.replicate 5 base_prompts_once)

/-- `AnomalyDetector.train_initial_model`: embed the corpus, fit the
IsolationForest (contamination `0.005`, `200` estimators, seed `42`), fit the
2-component PCA on the same embeddings recording the projected baseline, then
save.  Returns the new state and the saved artifact. -/
def train_initial_model (encode : String → Emb)
    (fitForest : ℚ → Nat → Nat → List Emb → M)
    (fitPca : Nat → List Emb → P × B) :
    AnomalyDetector M P B × ModelFile M P B :=
  let baseline_embeddings := base_prompts.map encode
  let model := fitForest (1/200) 200 42 baseline_embeddings
  let fitted := fitPca 2 baseline_embeddings
  let det : AnomalyDetector M P B :=
    { model := some model, pca := some fitted.1,
      baseline_embeddings_pca := some fitted.2 }
  (det, save_model_state det)

/-- `AnomalyDetector._load_model_state`: a missing or zero-length artifact, or
an `EOFError`/`UnpicklingError` from `pickle.load`, falls back to retraining
(in the exception case after deleting the artifact — the returned file is the
one the retrain saves); a successful unpickle installs the three fields on the
current detector; any other exception propagates (`.error`). -/
def load_model_state (encode : String → Emb)
    (fitForest : ℚ → Nat → Nat → List Emb → M)
    (fitPca : Nat → List Emb → P × B)
    (file : ModelFile M P B) (det : AnomalyDetector M P B) :
    Except String (AnomalyDetector M P B × ModelFile M P B) :=
  if !file.fileExists || file.fileSize == 0 then
    .ok (train_initial_model encode fitForest fitPca)
  else
    match file.pickled with
    | .ok st =>
        let det2 := { det with
          model := st.model
          pca := st.pca
          baseline_embeddings_pca := st.baseline_embeddings_pca }
        .ok (det2, file)
    | .eofError _ => .ok (train_initial_model encode fitForest fitPca)
    | .unpicklingError _ => .ok (train_initial_model encode fitForest fitPca)
    | .otherError e => .error e

/-- `AnomalyDetector.detect_anomaly`: raises `RuntimeError` when the model or
the PCA is absent; otherwise embeds the prompt, classifies it as an anomaly
iff `predict` returns `-1`, computes the decision-function score, and projects
the embedding to 2D coordinates. -/
def detect_anomaly (encode : String → Emb) (predict : M → Emb → Int)
    (decisionFunction : M → Emb → ℚ) (pcaTransform : P → Emb → ℚ × ℚ)
    (det : AnomalyDetector M P B) (prompt : String) :
    Except String AnomalyOut :=
  match det.model, det.pca with
  | some m, some p =>
      let prompt_embedding := encode prompt
      .ok { is_anomaly := decide (predict m prompt_embedding = -1),
            anomaly_score := decisionFunction m prompt_embedding,
            pca_coords := pcaTransform p prompt_embedding }
  | _, _ => .error "Model is not trained or loaded. Cannot detect anomalies."

/-! ## Statement vocabulary and concrete instantiations -/

/-- Field lookup on a pipeline result (`Option.none` on an exception). -/
def resultLookup (r : Except String PyDict) (k : String) : Option PyVal :=
  match r with
  | .error _ => Option.none
  | .ok d => dictLookup d k

/-- The coordinates the decision record is expected to carry: the `(0,0)`
sentinel when the denylist short-circuits, otherwise the coordinates computed
by the outlier-check step.  (The error branch is immaterial: a detector
exception propagates and no record is returned.) -/
def step2Coords (detect : String → Except String AnomalyOut) (prompt : String) : PyVal :=
  if check_rules prompt = false then .tup 0 0
  else
    match detect prompt with
    | .ok ar => .tup ar.pca_coords.1 ar.pca_coords.2
    | .error _ => .tup 0 0

/-- A model call that returns some response text. -/
def genOk : String → Except String String := fun _ => .ok "resp"

/-- A model call that raises a transport error. -/
def genFail : String → Except String String := fun _ => .error "503 Service Unavailable"

/-- A parse producing a safe, well-typed verdict. -/
def parseSafe : String → Except String PyObj :=
  fun _ => .ok (.dict [("is_safe", .bool true), ("reason", .str "benign research request")])

/-- A parse producing an unsafe, well-typed verdict. -/
def parseUnsafe : String → Except String PyObj :=
  fun _ => .ok (.dict [("is_safe", .bool false), ("threat_type", .str "hacking"),
                       ("reason", .str "malicious request")])

/-- A parse producing a dictionary with no `is_safe` key. -/
def parseNoKey : String → Except String PyObj :=
  fun _ => .ok (.dict [("reason", .str "no verdict fields")])

/-- A parse producing a dictionary whose `is_safe` is a non-empty string:
not the boolean `true`, but truthy in Python. -/
def parseTruthyStr : String → Except String PyObj :=
  fun _ => .ok (.dict [("is_safe", .str "no")])

/-- A detector call classifying every prompt as an inlier, coords `(3, 4)`. -/
def detectCalm : String → Except String AnomalyOut :=
  fun _ => .ok { is_anomaly := false, anomaly_score := 1/10, pca_coords := (3, 4) }

/-- A detector call classifying every prompt as an outlier, coords `(5, 6)`. -/
def detectOutlier : String → Except String AnomalyOut :=
  fun _ => .ok { is_anomaly := true, anomaly_score := -1/2, pca_coords := (5, 6) }

/-- The record `process_request` builds on the override path for
`detectOutlier`/`parseSafe` (note: no `override_triggered` key). -/
def overrideRecordConcrete : PyDict :=
  [("is_safe", .bool true), ("action", .str "allowed"),
   ("threat_type", .str "anomaly_overridden"),
   ("reason", .str "Anomaly was detected but overridden by AI context analysis. Gemini reason: benign research request"),
   ("pca_coords", .tup 5 6)]

/-- Trivial embedder over `Unit` ML types, for concrete detector scenarios. -/
def encodeU : String → Unit := fun _ => ()

/-- Trivial IsolationForest fit over `Unit`. -/
def forestU : ℚ → Nat → Nat → List Unit → Unit := fun _ _ _ _ => ()

/-- Trivial PCA fit over `Unit`. -/
def pcaU : Nat → List Unit → Unit × Unit := fun _ _ => ((), ())

/-- Trivial predict (always inlier). -/
def predictU : Unit → Unit → Int := fun _ _ => 1

/-- Trivial decision function. -/
def decisionU : Unit → Unit → ℚ := fun _ _ => 0

/-- Trivial PCA transform. -/
def transformU : Unit → Unit → ℚ × ℚ := fun _ _ => (0, 0)

/-- A detector whose model state was never trained or loaded. -/
def detUninit : AnomalyDetector Unit Unit Unit :=
  { model := Option.none, pca := Option.none, baseline_embeddings_pca := Option.none }

/-- An artifact whose unpickling raises an exception type outside the two the
loader catches (as `pickle.load` documents may happen). -/
def fileAttrErr : ModelFile Unit Unit Unit :=
  { fileExists := true, fileSize := 7,
    pickled := .otherError "AttributeError: module has no attribute OldForest" }

/-- An artifact whose unpickling raises `EOFError` (truncated pickle). -/
def fileEof : ModelFile Unit Unit Unit :=
  { fileExists := true, fileSize := 3, pickled := .eofError "Ran out of input" }

/-! ## Helper lemmas on dictionary operations -/

theorem dictLookup_dictSet_self (d : PyDict) (k : String) (v : PyVal) :
    dictLookup (dictSet d k v) k = some v := by
  induction d with
  | nil => simp [dictSet, dictLookup]
  | cons kv rest ih =>
      obtain ⟨k2, w⟩ := kv
      by_cases h : k2 = k <;> simp [dictSet, dictLookup, h, ih]

theorem dictLookup_dictSet_ne (d : PyDict) (k k2 : String) (v : PyVal)
    (h : k ≠ k2) : dictLookup (dictSet d k v) k2 = dictLookup d k2 := by
  induction d with
  | nil => simp [dictSet, dictLookup, h]
  | cons kv rest ih =>
      obtain ⟨k3, w⟩ := kv
      by_cases h3 : k3 = k
      · subst h3
        simp [dictSet, dictLookup, h]
      · simp [dictSet, dictLookup, h3, ih]

/-! ## The claims -/

/-- C2.  A prompt whose lowercased text contains a banned phrase is blocked
immediately as a `rule_violation` with coordinates `(0.0, 0.0)`; the result
does not depend on the detector or on the adjudication oracles, so neither
the embedder nor the anomaly detector is consulted. -/
theorem banned_phrase_short_circuit (gen : String → Except String String)
    (parseJson : String → Except String PyObj)
    (detect : String → Except String AnomalyOut) (prompt : String)
    (h : ∃ phrase ∈ banned_phrases, containsSub (pyLower prompt) phrase = true) :
    process_request gen parseJson detect prompt =
      .ok [("is_safe", .bool false), ("threat_type", .str "rule_violation"),
           ("reason", .str "Request blocked by rule-based filter. Found a banned phrase."),
           ("action", .str "blocked"), ("pca_coords", .tup 0 0)]
    ∧ ∀ (gen2 : String → Except String String)
        (parseJson2 : String → Except String PyObj)
        (detect2 : String → Except String AnomalyOut),
        process_request gen2 parseJson2 detect2 prompt
          = process_request gen parseJson detect prompt := by
  have hc : check_rules prompt = false := by
    obtain ⟨ph, hmem, hsub⟩ := h
    simp only [check_rules, List.all_eq_false]
    exact ⟨ph, hmem, by simp [hsub]⟩
  refine ⟨?_, ?_⟩
  · simp [process_request, hc]
  · intro gen2 parseJson2 detect2
    simp [process_request, hc]

/-- Witness for C2 at the end-to-end prompt `"sudo rm -rf /"`. -/
theorem banned_phrase_short_circuit_witness :
    process_request genOk parseSafe detectCalm "sudo rm -rf /" =
      .ok [("is_safe", .bool false), ("threat_type", .str "rule_violation"),
           ("reason", .str "Request blocked by rule-based filter. Found a banned phrase."),
           ("action", .str "blocked"), ("pca_coords", .tup 0 0)] :=
  (banned_phrase_short_circuit genOk parseSafe detectCalm "sudo rm -rf /"
    ⟨"sudo rm -rf /", by decide, by decide⟩).1

/-- C3.  If the model call raises, or its response fails to parse as JSON,
`analyze_malicious_intent` swallows the exception and returns the synthetic
fail-closed verdict: `is_safe=false`, `threat_type="analysis_error"`, and a
diagnostic reason carrying the exception text. -/
theorem adjudication_fail_closed (gen : String → Except String String)
    (parseJson : String → Except String PyObj) (prompt : String) (e : String)
    (h : gen (full_prompt prompt) = .error e
       ∨ ∃ text, gen (full_prompt prompt) = .ok text
           ∧ parseJson (clean_json text) = .error e) :
    analyze_malicious_intent gen parseJson prompt =
      .dict [("is_safe", .bool false), ("threat_type", .str "analysis_error"),
             ("reason", .str ("AI model returned a malformed response or an error occurred: " ++ e))] := by
  rcases h with h | ⟨text, hg, hp⟩
  · simp [analyze_malicious_intent, h]
  · simp [analyze_malicious_intent, hg, hp]

/-- Witness for C3: a raising model call yields the fail-closed verdict. -/
theorem adjudication_fail_closed_witness :
    analyze_malicious_intent genFail parseSafe "How do I bake bread?" =
      .dict [("is_safe", .bool false), ("threat_type", .str "analysis_error"),
             ("reason", .str "AI model returned a malformed response or an error occurred: 503 Service Unavailable")] :=
  adjudication_fail_closed genFail parseSafe "How do I bake bread?"
    "503 Service Unavailable" (Or.inl rfl)

/-- C1.  Evaluation of the override path at a failing input: an outlier
prompt whose adjudication verdict is `is_safe=true` yields
`action="allowed"` and `threat_type="anomaly_overridden"`, but the returned
record contains no `override_triggered` key at all (its lookup is `none`),
although `app.py` reads that key to render its override banner. -/
theorem override_record_lacks_override_flag :
    process_request genOk parseSafe detectOutlier "weird gibberish zxqvf plum"
        = .ok overrideRecordConcrete
    ∧ dictLookup overrideRecordConcrete "override_triggered" = Option.none
    ∧ dictLookup overrideRecordConcrete "action" = some (.str "allowed")
    ∧ dictLookup overrideRecordConcrete "threat_type" = some (.str "anomaly_overridden")
    ∧ dictLookup overrideRecordConcrete "is_safe" = some (.bool true) := by
  refine ⟨?_, rfl, rfl, rfl, rfl⟩
  rfl

/-- C4.  For an outlier prompt whose adjudication verdict does not have
`is_safe=true` (the key absent or the boolean `false`, as in the
parse-failure verdict), the pipeline blocks, taking `threat_type` from the
verdict and defaulting it to `"anomaly_confirmed"` when absent. -/
theorem outlier_unsafe_blocked (gen : String → Except String String)
    (parseJson : String → Except String PyObj)
    (detect : String → Except String AnomalyOut) (prompt : String)
    (ar : AnomalyOut) (d : PyDict)
    (h1 : check_rules prompt = true) (h2 : detect prompt = .ok ar)
    (h3 : ar.is_anomaly = true)
    (h4 : analyze_malicious_intent gen parseJson prompt = .dict d)
    (h5 : dictLookup d "is_safe" = Option.none
        ∨ dictLookup d "is_safe" = some (.bool false)) :
    process_request gen parseJson detect prompt =
      .ok [("is_safe", .bool false), ("action", .str "blocked"),
           ("threat_type", dictGet d "threat_type" (.str "anomaly_confirmed")),
           ("reason", .str ("Anomaly was detected and confirmed by AI context analysis. Gemini reason: "
             ++ (dictGet d "reason" PyVal.none).pyStr)),
           ("pca_coords", .tup ar.pca_coords.1 ar.pca_coords.2)] := by
  have htr : (dictGet d "is_safe" (.bool false)).truthy = false := by
    rcases h5 with h5 | h5 <;> simp [dictGet, h5, PyVal.truthy]
  simp [process_request, h1, h2, h3, h4, htr]

/-- Witness for C4: outlier prompt, unsafe verdict with a `threat_type`. -/
theorem outlier_unsafe_blocked_witness :
    process_request genOk parseUnsafe detectOutlier "hello there" =
      .ok [("is_safe", .bool false), ("action", .str "blocked"),
           ("threat_type", .str "hacking"),
           ("reason", .str "Anomaly was detected and confirmed by AI context analysis. Gemini reason: malicious request"),
           ("pca_coords", .tup 5 6)] :=
  outlier_unsafe_blocked genOk parseUnsafe detectOutlier "hello there"
    { is_anomaly := true, anomaly_score := -1/2, pca_coords := (5, 6) }
    [("is_safe", .bool false), ("threat_type", .str "hacking"),
     ("reason", .str "malicious request")]
    rfl rfl rfl rfl (Or.inr rfl)

/-- C5.  On the standard path (denylist passed, not an outlier), with the
verdict typed as the spec's data model types it (`is_safe` boolean when
present), the action is `allowed` exactly when the verdict has
`is_safe=true` and `blocked` otherwise, `threat_type` and `reason` are
copied from the verdict, and the coordinates come from the outlier-check
step. -/
theorem standard_path_verdict (gen : String → Except String String)
    (parseJson : String → Except String PyObj)
    (detect : String → Except String AnomalyOut) (prompt : String)
    (ar : AnomalyOut) (d : PyDict)
    (h1 : check_rules prompt = true) (h2 : detect prompt = .ok ar)
    (h3 : ar.is_anomaly = false)
    (h4 : analyze_malicious_intent gen parseJson prompt = .dict d)
    (h5 : ∀ v, dictLookup d "is_safe" = some v → ∃ b, v = PyVal.bool b) :
    (process_request gen parseJson detect prompt).isOk = true
    ∧ resultLookup (process_request gen parseJson detect prompt) "action"
        = some (.str (if dictLookup d "is_safe" = some (.bool true) then "allowed" else "blocked"))
    ∧ resultLookup (process_request gen parseJson detect prompt) "threat_type"
        = dictLookup d "threat_type"
    ∧ resultLookup (process_request gen parseJson detect prompt) "reason"
        = dictLookup d "reason"
    ∧ resultLookup (process_request gen parseJson detect prompt) "pca_coords"
        = some (.tup ar.pca_coords.1 ar.pca_coords.2) := by
  have hcond : (dictGet (dictSet d "pca_coords" (.tup ar.pca_coords.1 ar.pca_coords.2))
      "is_safe" (PyVal.bool false)).truthy
      = (if dictLookup d "is_safe" = some (PyVal.bool true) then true else false) := by
    rw [dictGet, dictLookup_dictSet_ne _ _ _ _ (by decide)]
    rcases hcase : dictLookup d "is_safe" with _ | v
    · simp [PyVal.truthy]
    · obtain ⟨b, rfl⟩ := h5 v hcase
      cases b <;> simp [PyVal.truthy]
  have hpr : process_request gen parseJson detect prompt
      = .ok (dictSet (dictSet d "pca_coords" (.tup ar.pca_coords.1 ar.pca_coords.2)) "action"
          (.str (if dictLookup d "is_safe" = some (PyVal.bool true) then "allowed" else "blocked"))) := by
    simp only [process_request, h1, h2, h3, h4]
    rw [hcond]
    by_cases hsafe : dictLookup d "is_safe" = some (PyVal.bool true) <;> simp [hsafe]
  rw [hpr]
  refine ⟨rfl, ?_, ?_, ?_, ?_⟩
  · simp [resultLookup, dictLookup_dictSet_self]
  · simp [resultLookup, dictLookup_dictSet_ne _ _ _ _ (by decide : ("action" : String) ≠ "threat_type"),
          dictLookup_dictSet_ne _ _ _ _ (by decide : ("pca_coords" : String) ≠ "threat_type")]
  · simp [resultLookup, dictLookup_dictSet_ne _ _ _ _ (by decide : ("action" : String) ≠ "reason"),
          dictLookup_dictSet_ne _ _ _ _ (by decide : ("pca_coords" : String) ≠ "reason")]
  · simp [resultLookup, dictLookup_dictSet_ne _ _ _ _ (by decide : ("action" : String) ≠ "pca_coords"),
          dictLookup_dictSet_self]

/-- Witness for C5: non-outlier prompt, unsafe well-typed verdict. -/
theorem standard_path_verdict_witness :
    (process_request genOk parseUnsafe detectCalm "hello there").isOk = true
    ∧ resultLookup (process_request genOk parseUnsafe detectCalm "hello there") "action"
        = some (.str "blocked")
    ∧ resultLookup (process_request genOk parseUnsafe detectCalm "hello there") "threat_type"
        = some (.str "hacking")
    ∧ resultLookup (process_request genOk parseUnsafe detectCalm "hello there") "reason"
        = some (.str "malicious request")
    ∧ resultLookup (process_request genOk parseUnsafe detectCalm "hello there") "pca_coords"
        = some (.tup 3 4) :=
  standard_path_verdict genOk parseUnsafe detectCalm "hello there"
    { is_anomaly := false, anomaly_score := 1/10, pca_coords := (3, 4) }
    [("is_safe", .bool false), ("threat_type", .str "hacking"),
     ("reason", .str "malicious request")]
    rfl rfl rfl rfl
    (fun _ hv => ⟨false, (Option.some.inj hv).symm⟩)

/-- C9.  Whenever `process_request` returns a record, its `pca_coords` field
holds the coordinates of the outlier-check step, or the `(0.0, 0.0)` sentinel
when the denylist short-circuited, regardless of the branch that produced the
action. -/
theorem record_carries_step2_coordinates (gen : String → Except String String)
    (parseJson : String → Except String PyObj)
    (detect : String → Except String AnomalyOut) (prompt : String) (r : PyDict)
    (h : process_request gen parseJson detect prompt = .ok r) :
    dictLookup r "pca_coords" = some (step2Coords detect prompt) := by
  unfold process_request at h
  unfold step2Coords
  by_cases hc : check_rules prompt = false
  · rw [if_pos hc] at h
    rw [if_pos hc]
    cases h
    rfl
  · rw [if_neg hc] at h
    rw [if_neg hc]
    rcases hd : detect prompt with e | ar
    · rw [hd] at h
      dsimp only at h
      exact Except.noConfusion h
    · rw [hd] at h
      dsimp only at h
      by_cases ha : ar.is_anomaly = true
      · rw [if_pos ha] at h
        rcases hA : analyze_malicious_intent gen parseJson prompt with g | v
        · rw [hA] at h
          dsimp only at h
          by_cases ht : (dictGet g "is_safe" (PyVal.bool false)).truthy = true
          · rw [if_pos ht] at h
            cases h
            rfl
          · rw [if_neg ht] at h
            cases h
            rfl
        · rw [hA] at h
          dsimp only at h
          exact Except.noConfusion h
      · rw [if_neg ha] at h
        rcases hA : analyze_malicious_intent gen parseJson prompt with g | v
        · rw [hA] at h
          dsimp only at h
          by_cases ht : (dictGet (dictSet g "pca_coords"
              (.tup ar.pca_coords.1 ar.pca_coords.2)) "is_safe" (PyVal.bool false)).truthy = false
          · rw [if_pos ht] at h
            cases h
            rw [dictLookup_dictSet_ne _ _ _ _ (by decide : ("action" : String) ≠ "pca_coords"),
                dictLookup_dictSet_self]
          · rw [if_neg ht] at h
            cases h
            rw [dictLookup_dictSet_ne _ _ _ _ (by decide : ("action" : String) ≠ "pca_coords"),
                dictLookup_dictSet_self]
        · rw [hA] at h
          dsimp only at h
          exact Except.noConfusion h

/-- Witness for C9 on the standard path with coordinates `(3, 4)`. -/
theorem record_carries_step2_coordinates_witness :
    dictLookup
      (dictSet (dictSet [("is_safe", PyVal.bool true), ("reason", PyVal.str "benign research request")]
        "pca_coords" (.tup 3 4)) "action" (.str "allowed"))
      "pca_coords" = some (step2Coords detectCalm "hello there") :=
  record_carries_step2_coordinates genOk parseSafe detectCalm "hello there" _ rfl

/-- C10 counterexample: a verdict dictionary whose `is_safe` is the string
`"no"` — not the boolean `true` — is nevertheless allowed on the standard
path, because the code tests Python truthiness, not equality with `true`. -/
theorem truthy_nonbool_is_safe_allowed :
    resultLookup (process_request genOk parseTruthyStr detectCalm "hello there") "is_safe"
      = some (.str "no")
    ∧ PyVal.str "no" ≠ PyVal.bool true
    ∧ resultLookup (process_request genOk parseTruthyStr detectCalm "hello there") "action"
      = some (.str "allowed")
    ∧ PyVal.str "allowed" ≠ PyVal.str "blocked" := by
  exact ⟨rfl, by decide, rfl, by decide⟩

/-- C10 as amended: on either path, the final action is `allowed` exactly
when the verdict dictionary's `is_safe` entry is present and truthy in the
Python sense, and `blocked` otherwise (in particular when the key is absent
or falsy). -/
theorem allowance_iff_truthy_is_safe (gen : String → Except String String)
    (parseJson : String → Except String PyObj)
    (detect : String → Except String AnomalyOut) (prompt : String)
    (ar : AnomalyOut) (d : PyDict)
    (h1 : check_rules prompt = true) (h2 : detect prompt = .ok ar)
    (h3 : analyze_malicious_intent gen parseJson prompt = .dict d) :
    resultLookup (process_request gen parseJson detect prompt) "action"
      = some (.str (if (dictGet d "is_safe" (.bool false)).truthy
          then "allowed" else "blocked")) := by
  have hcond : dictGet (dictSet d "pca_coords" (.tup ar.pca_coords.1 ar.pca_coords.2))
      "is_safe" (PyVal.bool false) = dictGet d "is_safe" (PyVal.bool false) := by
    rw [dictGet, dictGet, dictLookup_dictSet_ne _ _ _ _ (by decide)]
  by_cases ha : ar.is_anomaly = true
  · by_cases ht : (dictGet d "is_safe" (PyVal.bool false)).truthy = true
    · simp [process_request, resultLookup, h1, h2, h3, ha, ht, dictLookup]
    · simp [process_request, resultLookup, h1, h2, h3, ha, ht, dictLookup]
  · by_cases ht : (dictGet d "is_safe" (PyVal.bool false)).truthy = true
    · simp [process_request, resultLookup, h1, h2, h3, ha, hcond, ht,
            dictLookup_dictSet_self]
    · simp [process_request, resultLookup, h1, h2, h3, ha, hcond, ht,
            dictLookup_dictSet_self]

/-- Witness for C10's amended statement: a verdict with no `is_safe` key is
blocked on the standard path. -/
theorem allowance_iff_truthy_is_safe_witness :
    resultLookup (process_request genOk parseNoKey detectCalm "hello there") "action"
      = some (.str "blocked") :=
  allowance_iff_truthy_is_safe genOk parseNoKey detectCalm "hello there"
    { is_anomaly := false, anomaly_score := 1/10, pca_coords := (3, 4) }
    [("reason", .str "no verdict fields")] rfl rfl rfl

/-- C8.  `detect_anomaly` raises the "not initialized" `RuntimeError` when
the model or the PCA projector has not been trained or loaded. -/
theorem detect_anomaly_requires_initialized (encode : String → Emb)
    (predict : M → Emb → Int) (decisionFunction : M → Emb → ℚ)
    (pcaTransform : P → Emb → ℚ × ℚ) (det : AnomalyDetector M P B)
    (prompt : String)
    (h : det.model = Option.none ∨ det.pca = Option.none) :
    detect_anomaly encode predict decisionFunction pcaTransform det prompt
      = .error "Model is not trained or loaded. Cannot detect anomalies." := by
  obtain ⟨m, p, b⟩ := det
  cases m <;> cases p <;> simp_all [detect_anomaly]

/-- Witness for C8 on a never-trained detector. -/
theorem detect_anomaly_requires_initialized_witness :
    detect_anomaly encodeU predictU decisionU transformU detUninit "Hello, how are you?"
      = .error "Model is not trained or loaded. Cannot detect anomalies." :=
  detect_anomaly_requires_initialized encodeU predictU decisionU transformU detUninit
    "Hello, how are you?" (Or.inl rfl)

/-- C6 counterexample: when `pickle.load` fails with an exception type outside
the two the loader catches (here an `AttributeError`, which `pickle.load`
documents it may raise), `_load_model_state` raises past the loader instead of
falling back to retraining. -/
theorem load_other_error_propagates :
    load_model_state encodeU forestU pcaU fileAttrErr detUninit
      = .error "AttributeError: module has no attribute OldForest" := rfl

/-- C6 as amended: a missing or zero-length artifact, or an unpickling
failure of the two caught classes (`EOFError`, `pickle.UnpicklingError`),
is recovered by retraining (deleting the artifact in the exception case),
and the retrain populates all three state fields. -/
theorem load_recovers_on_known_corruption (encode : String → Emb)
    (fitForest : ℚ → Nat → Nat → List Emb → M) (fitPca : Nat → List Emb → P × B)
    (file : ModelFile M P B) (det : AnomalyDetector M P B)
    (h : file.fileExists = false ∨ file.fileSize = 0
       ∨ (∃ msg, file.pickled = .eofError msg)
       ∨ (∃ msg, file.pickled = .unpicklingError msg)) :
    load_model_state encode fitForest fitPca file det
      = .ok (train_initial_model encode fitForest fitPca)
    ∧ (train_initial_model encode fitForest fitPca (M := M) (P := P) (B := B)).1.model.isSome = true
    ∧ (train_initial_model encode fitForest fitPca (M := M) (P := P) (B := B)).1.pca.isSome = true
    ∧ (train_initial_model encode fitForest fitPca (M := M) (P := P) (B := B)).1.baseline_embeddings_pca.isSome
        = true := by
  refine ⟨?_, rfl, rfl, rfl⟩
  rcases h with h | h | ⟨msg, h⟩ | ⟨msg, h⟩
  · simp [load_model_state, h]
  · simp [load_model_state, h]
  · by_cases hf : (!file.fileExists || file.fileSize == 0) = true
    · simp [load_model_state, hf]
    · simp [load_model_state, Bool.not_eq_true _ ▸ hf, h]
  · by_cases hf : (!file.fileExists || file.fileSize == 0) = true
    · simp [load_model_state, hf]
    · simp [load_model_state, Bool.not_eq_true _ ▸ hf, h]

/-- Witness for C6's amended statement: a truncated pickle (`EOFError`) is
recovered by retraining, which populates the whole state. -/
theorem load_recovers_on_known_corruption_witness :
    load_model_state encodeU forestU pcaU fileEof detUninit
      = .ok (train_initial_model encodeU forestU pcaU)
    ∧ (train_initial_model encodeU forestU pcaU).1.model.isSome = true
    ∧ (train_initial_model encodeU forestU pcaU).1.pca.isSome = true
    ∧ (train_initial_model encodeU forestU pcaU).1.baseline_embeddings_pca.isSome = true :=
  load_recovers_on_known_corruption encodeU forestU pcaU fileEof detUninit
    (Or.inr (Or.inr (Or.inl ⟨"Ran out of input", rfl⟩)))

/-- C7.  Saving a model state and loading it back reproduces the state (same
model, projector and baseline projection), and `detect_anomaly` returns
identical results on the loaded state for every probe prompt. -/
theorem persistence_roundtrip_scores_identical (encode : String → Emb)
    (predict : M → Emb → Int) (decisionFunction : M → Emb → ℚ)
    (pcaTransform : P → Emb → ℚ × ℚ) (encodeB : String → Emb)
    (fitForest : ℚ → Nat → Nat → List Emb → M) (fitPca : Nat → List Emb → P × B)
    (det det0 : AnomalyDetector M P B) :
    ∃ det2 file2,
      load_model_state encodeB fitForest fitPca (save_model_state det) det0
        = .ok (det2, file2)
      ∧ det2.model = det.model
      ∧ det2.pca = det.pca
      ∧ det2.baseline_embeddings_pca = det.baseline_embeddings_pca
      ∧ ∀ prompt,
          detect_anomaly encode predict decisionFunction pcaTransform det2 prompt
            = detect_anomaly encode predict decisionFunction pcaTransform det prompt :=
  ⟨_, _, rfl, rfl, rfl, rfl, fun _ => rfl⟩

end SentinelShield
